import Mathlib

/-!
Verification of the prompt-graph traversal model of `prompt_graph.py`.

The embedding mirrors the Python source:
* Python dictionaries become association lists over `String` keys with
  first-match lookup (`pyGet`) and replace-in-place-or-append update
  (`pySet`), matching `dict.get` and `d[k] = v`.
* Payload field values are `Option String`: the declared type is `str`,
  but Python can store `None` and the edge conditions distinguish a
  missing key from a stored `None`, so both must be representable.
* The unchecked `self.nodes[edge.target]` lookup of `next_nodes` is
  modelled with `Except`, a `KeyError` becoming `Except.error`.
-/

namespace MagicPrompt

/-- A Python `dict` with string keys: an association list, first match wins. -/
abbrev Dict (V : Type) : Type := List (String × V)

/-- `d.get(k)`: first value stored under `k`, or `none`. -/
def pyGet {V : Type} : Dict V → String → Option V
  | [], _ => none
  | (k, v) :: rest, key => if k = key then some v else pyGet rest key

/-- `d[k] = v`: replace the value in place when the key exists, else append. -/
def pySet {V : Type} : Dict V → String → V → Dict V
  | [], key, v => [(key, v)]
  | (k, w) :: rest, key, v =>
      if k = key then (key, v) :: rest else (k, w) :: pySet rest key v

theorem pyGet_pySet_self {V : Type} (m : Dict V) (k : String) (v : V) :
    pyGet (pySet m k v) k = some v := by
  induction m with
  | nil => simp [pySet, pyGet]
  | cons hd tl ih =>
      obtain ⟨k0, v0⟩ := hd
      by_cases h : k0 = k
      · simp [pySet, pyGet, h]
      · simp [pySet, pyGet, h, ih]

theorem pyGet_pySet_ne {V : Type} (m : Dict V) (k key : String) (v : V)
    (h : key ≠ k) : pyGet (pySet m k v) key = pyGet m key := by
  induction m with
  | nil => simp [pySet, pyGet, Ne.symm h]
  | cons hd tl ih =>
      obtain ⟨k0, v0⟩ := hd
      by_cases h0 : k0 = k
      · subst h0
        simp [pySet, pyGet, Ne.symm h]
      · by_cases h1 : k0 = key
        · simp [pySet, pyGet, h0, h1, h]
        · simp [pySet, pyGet, h0, h1, ih]

theorem pyGet_pySet_isSome {V : Type} (m : Dict V) (k key : String) (v : V)
    (h : (pyGet m key).isSome) : (pyGet (pySet m k v) key).isSome := by
  by_cases hk : key = k
  · subst hk; simp [pyGet_pySet_self]
  · rwa [pyGet_pySet_ne m k key v hk]

/-- A stage payload: field name to collected value (`None` representable). -/
abbrev Payload : Type := Dict (Option String)

/-- `GraphContext`: state accumulated while traversing the graph. -/
structure GraphContext where
  answers : Dict Payload := []
  preset : Option String := none

/-- `Condition = Callable[[GraphContext], bool]`. -/
abbrev Condition : Type := GraphContext → Bool

/-- `Transform = Callable[[Dict[str, str], GraphContext], Dict[str, str]]`. -/
abbrev Transform : Type := Payload → GraphContext → Payload

/-- `Node`: single actionable step inside the prompt graph. -/
structure Node where
  id : String
  layer : String
  prompt_template : String
  collects : List String
  summary_key : Option String := none
  transforms : List Transform := []

/-- `Edge`: directional link between two nodes with an optional condition. -/
structure Edge where
  source : String
  target : String
  condition : Option Condition := none

/-- `PromptGraph`: collection of nodes and edges. -/
structure PromptGraph where
  nodes : Dict Node
  edges : List Edge
  entrypoint : String

/-- An edge with no condition is always eligible; otherwise its predicate
is applied to the current context (`edge.condition is None or
edge.condition(context)`). -/
def edgeEligible (e : Edge) (c : GraphContext) : Bool :=
  match e.condition with
  | none => true
  | some cond => cond c

/-- `self.nodes[edge.target]` for each edge in turn; the first missing
target raises (`Except.error` carries the offending key, like `KeyError`). -/
def resolve_targets (g : PromptGraph) : List Edge → Except String (List Node)
  | [] => Except.ok []
  | e :: rest =>
      match pyGet g.nodes e.target with
      | some n => (resolve_targets g rest).map (fun l => n :: l)
      | none => Except.error e.target

/-- `PromptGraph.next_nodes`: the list comprehension filters the edge list by
source and eligibility and maps each kept edge through the unchecked node
lookup, in edge-list order. -/
def next_nodes (g : PromptGraph) (node_id : String) (context : GraphContext) :
    Except String (List Node) :=
  resolve_targets g
    (g.edges.filter (fun e => e.source == node_id && edgeEligible e context))

/-- The transform loop of `store_answer`: `enriched` starts as the payload
and each transform receives the running value and the context. -/
def apply_transforms (ts : List Transform) (payload : Payload)
    (c : GraphContext) : Payload :=
  ts.foldl (fun enriched t => t enriched c) payload

/-- `GraphContext.store_answer`: run the transforms of the node over the payload,
then assign the result to `answers[node.id]`. -/
def store_answer (node : Node) (payload : Payload) (c : GraphContext) :
    GraphContext :=
  { c with answers := pySet c.answers node.id (apply_transforms node.transforms payload c) }

/-! ### The fixed seed graph of `default_graph()` -/

/-- Node `"idea:seed"` of `default_graph`. -/
def idea_seed : Node :=
  { id := "idea:seed"
    layer := "idea"
    prompt_template := "Собери исходную идею пользователя для генерации изображения."
    collects := ["concept", "audience", "goal"]
    summary_key := some "concept" }

/-- Node `"story:genre"` of `default_graph`. -/
def story_genre : Node :=
  { id := "story:genre"
    layer := "story"
    prompt_template := "Уточни жанр, настроение и ключевые элементы сюжета."
    collects := ["genre", "mood", "key_elements"] }

/-- Node `"style:visual_language"` of `default_graph`. -/
def style_visual_language : Node :=
  { id := "style:visual_language"
    layer := "style"
    prompt_template := "Определи визуальный стиль, цветовую палитру и источники вдохновения."
    collects := ["visual_style", "color_palette", "inspiration"] }

/-- Node `"technique:camera"` of `default_graph`. -/
def technique_camera : Node :=
  { id := "technique:camera"
    layer := "technique"
    prompt_template := "Если уместно, задай технические параметры (камера, объектив, освещение)."
    collects := ["camera", "lens", "lighting"] }

/-- Node `"delivery:export"` of `default_graph`. -/
def delivery_export : Node :=
  { id := "delivery:export"
    layer := "delivery"
    prompt_template := "Собери финальный промпт и переведи его на русский и английский."
    collects := ["prompt_ru", "prompt_en"] }

/-- `lambda ctx: ctx.answers.get("technique:camera", \x7b\x7d).get("camera") is not None`.
`dict.get` yields `None` both for a missing `"camera"` key and for a stored
`None`, hence the `Option.bind id`. -/
def camera_ready : Condition := fun ctx =>
  ((pyGet ((pyGet ctx.answers "technique:camera").getD []) "camera").bind id).isSome

/-- `lambda ctx: ctx.answers.get("style:visual_language") is not None`. -/
def style_answered : Condition := fun ctx =>
  (pyGet ctx.answers "style:visual_language").isSome

/-- `default_graph()`: the seed graph used by the CLI MVP. -/
def default_graph : PromptGraph :=
  { nodes :=
      [ ("idea:seed", idea_seed)
      , ("story:genre", story_genre)
      , ("style:visual_language", style_visual_language)
      , ("technique:camera", technique_camera)
      , ("delivery:export", delivery_export) ]
    edges :=
      [ { source := "idea:seed", target := "story:genre" }
      , { source := "story:genre", target := "style:visual_language" }
      , { source := "style:visual_language", target := "technique:camera" }
      , { source := "technique:camera", target := "delivery:export"
          condition := some camera_ready }
      , { source := "style:visual_language", target := "delivery:export"
          condition := some style_answered } ]
    entrypoint := "idea:seed" }

/-! ### Spec-side formulations, used for refinement claims -/

/-- Modelled from the spec wording of `next_nodes`: having already filtered
the edge list down to the edges whose source matches, include each matching
target node of an edge when the edge has no condition or its predicate returns
true on the context, preserving order. -/
def include_eligible (g : PromptGraph) (c : GraphContext) :
    List Edge → Except String (List Node)
  | [] => Except.ok []
  | e :: rest =>
      if edgeEligible e c then
        match pyGet g.nodes e.target with
        | some n => (include_eligible g c rest).map (fun l => n :: l)
        | none => Except.error e.target
      else include_eligible g c rest

/-- Modelled from the spec wording: filter the full edge list to those whose
source matches `node_id`, then include eligible targets in order. -/
def next_nodes_spec (g : PromptGraph) (node_id : String) (c : GraphContext) :
    Except String (List Node) :=
  include_eligible g c (g.edges.filter (fun e => e.source == node_id))

/-- Modelled from the spec wording of the transform pipeline: each transform
receives the running payload produced by the previous transform together with
the full context, in declared order. -/
def apply_transforms_spec : List Transform → Payload → GraphContext → Payload
  | [], p, _ => p
  | t :: ts, p, c => apply_transforms_spec ts (t p c) c

/-! ### Transform failure model

A Python transform is an arbitrary callable and may raise; `store_answer`
runs the whole transform loop before touching `self.answers`, so a raise
escapes before any write.  `Except` models the raise. -/

/-- A transform that may raise, the error being the exception. -/
abbrev TransformE : Type := Payload → GraphContext → Except String Payload

/-- The transform loop of `store_answer` over possibly-raising transforms:
stops at the first raise. -/
def apply_transformsE : List TransformE → Payload → GraphContext →
    Except String Payload
  | [], p, _ => Except.ok p
  | t :: ts, p, c =>
      match t p c with
      | Except.ok q => apply_transformsE ts q c
      | Except.error e => Except.error e

/-- `store_answer` under possibly-raising transforms: the pair is the
outcome seen by the caller and the context as it stands after the call
(the write to `answers[node_id]` happens only after the loop finishes). -/
def store_answer_try (node_id : String) (ts : List TransformE)
    (payload : Payload) (c : GraphContext) :
    Except String Unit × GraphContext :=
  match apply_transformsE ts payload c with
  | Except.ok enriched =>
      (Except.ok (), { c with answers := pySet c.answers node_id enriched })
  | Except.error e => (Except.error e, c)

/-! ### Helper lemmas -/

theorem resolve_filter_eq_include (g : PromptGraph) (nid : String)
    (c : GraphContext) :
    ∀ es : List Edge,
      resolve_targets g (es.filter (fun e => e.source == nid && edgeEligible e c))
        = include_eligible g c (es.filter (fun e => e.source == nid))
  | [] => rfl
  | e :: es => by
      cases hs : (e.source == nid) with
      | false =>
          simp [List.filter_cons, hs, resolve_filter_eq_include g nid c es]
      | true =>
          cases he : edgeEligible e c with
          | false =>
              simp [List.filter_cons, hs, he, include_eligible,
                resolve_filter_eq_include g nid c es]
          | true =>
              simp [List.filter_cons, hs, he, include_eligible,
                resolve_targets, resolve_filter_eq_include g nid c es]

theorem resolve_targets_mem (g : PromptGraph) :
    ∀ (es : List Edge) (l : List Node), resolve_targets g es = Except.ok l →
      ∀ e ∈ es, ∀ nd, pyGet g.nodes e.target = some nd → nd ∈ l
  | [], _, _, _, he, _, _ => absurd he (List.not_mem_nil _)
  | e0 :: es, l, hok, e, he, nd, hnd => by
      rcases List.mem_cons.mp he with h | h
      · subst h
        rw [resolve_targets, hnd] at hok
        cases hrest : resolve_targets g es with
        | error msg => rw [hrest] at hok; exact absurd hok (by simp [Except.map])
        | ok l0 =>
            rw [hrest] at hok
            simp [Except.map] at hok
            rw [← hok]
            exact List.mem_cons_self nd l0
      · rw [resolve_targets] at hok
        cases htgt : pyGet g.nodes e0.target with
        | none => rw [htgt] at hok; exact absurd hok (by simp)
        | some n0 =>
            rw [htgt] at hok
            cases hrest : resolve_targets g es with
            | error msg =>
                rw [hrest] at hok; exact absurd hok (by simp [Except.map])
            | ok l0 =>
                rw [hrest] at hok
                simp [Except.map] at hok
                rw [← hok]
                exact List.mem_cons_of_mem n0
                  (resolve_targets_mem g es l0 hrest e h nd hnd)

theorem apply_transforms_eq_spec :
    ∀ (ts : List Transform) (p : Payload) (c : GraphContext),
      apply_transforms ts p c = apply_transforms_spec ts p c
  | [], _, _ => rfl
  | t :: ts, p, c => apply_transforms_eq_spec ts (t p c) c

theorem apply_transforms_congr :
    ∀ (ts : List Transform) (p : Payload) (c1 c2 : GraphContext),
      (∀ t ∈ ts, ∀ q : Payload, t q c1 = t q c2) →
      apply_transforms ts p c1 = apply_transforms ts p c2
  | [], _, _, _, _ => rfl
  | t :: ts, p, c1, c2, h => by
      have h1 : t p c1 = t p c2 := h t (List.mem_cons_self t ts) p
      show apply_transforms ts (t p c1) c1 = apply_transforms ts (t p c2) c2
      rw [h1]
      exact apply_transforms_congr ts (t p c2) c1 c2
        (fun t0 ht0 q => h t0 (List.mem_cons_of_mem t ht0) q)

/-! ### Claims about `next_nodes` and `store_answer` in general -/

/-- Claim C1: `next_nodes` returns exactly the nodes mapped from the targets
of edges whose source equals `node_id` and whose condition is absent or true
on the context, in edge-list declaration order (the spec-worded two-pass
formulation agrees with the single comprehension of the source); in particular
every unconditional edge with matching source contributes its target
regardless of the context. -/
theorem next_nodes_matches_spec (g : PromptGraph) (node_id : String)
    (c : GraphContext) :
    next_nodes g node_id c = next_nodes_spec g node_id c
    ∧ (∀ e ∈ g.edges, e.source = node_id → e.condition = none →
        ∀ nd, pyGet g.nodes e.target = some nd →
        ∀ l, next_nodes g node_id c = Except.ok l → nd ∈ l) := by
  constructor
  · exact resolve_filter_eq_include g node_id c g.edges
  · intro e he hsrc hcond nd hnd l hl
    refine resolve_targets_mem g _ l hl e ?_ nd hnd
    refine List.mem_filter.mpr ⟨he, ?_⟩
    simp [hsrc, edgeEligible, hcond]

theorem next_nodes_matches_spec_witness : story_genre ∈ [story_genre] :=
  (next_nodes_matches_spec default_graph "idea:seed" ⟨[], none⟩).2
    { source := "idea:seed", target := "story:genre" }
    (by simp [default_graph]) rfl rfl story_genre rfl [story_genre] rfl

/-- Claim C10: a node id that is the source of no edge — a terminal node or
an id absent from the node mapping altogether — yields the empty sequence,
and the unchecked target lookup is never reached. -/
theorem next_nodes_no_outgoing (g : PromptGraph) (n : String)
    (c : GraphContext) (h : ∀ e ∈ g.edges, e.source ≠ n) :
    next_nodes g n c = Except.ok [] := by
  have hnil : g.edges.filter (fun e => e.source == n && edgeEligible e c) = [] := by
    rw [List.filter_eq_nil_iff]
    intro e he
    simp [h e he]
  rw [next_nodes, hnil]
  rfl

theorem next_nodes_no_outgoing_witness :
    next_nodes default_graph "delivery:export" ⟨[], none⟩ = Except.ok [] :=
  next_nodes_no_outgoing default_graph "delivery:export" ⟨[], none⟩ (by decide)

/-- Claim C5: `store_answer` pipes the payload through the transforms of the node
in declared order — each transform receiving the running payload and the full
context — and then replaces (not merges) any previously stored answer for
`node.id` with the final result. -/
theorem store_answer_replaces (node : Node) (payload : Payload)
    (c : GraphContext) :
    (store_answer node payload c).answers
        = pySet c.answers node.id (apply_transforms_spec node.transforms payload c)
    ∧ pyGet (store_answer node payload c).answers node.id
        = some (apply_transforms_spec node.transforms payload c) := by
  constructor
  · simp [store_answer, apply_transforms_eq_spec]
  · simp [store_answer, apply_transforms_eq_spec, pyGet_pySet_self]

/-- Claim C9: `store_answer` only touches the `answers` entry for `node.id`:
the `preset` field and the stored answers of every other stage are unchanged, and
no key is ever removed, so the answered-stage set grows monotonically. -/
theorem store_answer_frame (node : Node) (payload : Payload)
    (c : GraphContext) :
    (store_answer node payload c).preset = c.preset
    ∧ (∀ k, k ≠ node.id →
        pyGet (store_answer node payload c).answers k = pyGet c.answers k)
    ∧ (∀ k, (pyGet c.answers k).isSome →
        (pyGet (store_answer node payload c).answers k).isSome) := by
  refine ⟨rfl, ?_, ?_⟩
  · intro k hk
    simp [store_answer, pyGet_pySet_ne _ _ _ _ hk]
  · intro k hk
    simp [store_answer]
    exact pyGet_pySet_isSome _ _ _ _ hk

theorem store_answer_frame_witness :
    pyGet ((store_answer idea_seed [("concept", some "cat")]
        ⟨[("story:genre", [("genre", some "noir")])], some "cine"⟩).answers)
        "story:genre"
      = pyGet
          (⟨[("story:genre", [("genre", some "noir")])], some "cine"⟩ :
            GraphContext).answers "story:genre" :=
  (store_answer_frame idea_seed [("concept", some "cat")]
    ⟨[("story:genre", [("genre", some "noir")])], some "cine"⟩).2.1
    "story:genre" (by decide)

/-- A transform whose output depends on whether its own stage already has a
stored answer; it breaks the idempotence of `store_answer`. -/
def fickle : Transform := fun _ ctx =>
  if (pyGet ctx.answers "loop:stage").isSome then [("k", some "second")]
  else [("k", some "first")]

/-- A node carrying the context-sensitive transform `fickle`. -/
def fickle_node : Node :=
  { id := "loop:stage", layer := "test", prompt_template := ""
    collects := ["k"], transforms := [fickle] }

/-- Claim C6 counterexample: for a node whose transform reads the context,
storing the same payload twice leaves a stored answer different from the
result of a single call, so `store_answer` is not overwrite-idempotent for
every node with a non-empty transform list. -/
theorem store_answer_not_idempotent :
    pyGet ((store_answer fickle_node []
        (store_answer fickle_node [] ⟨[], none⟩)).answers) "loop:stage"
      ≠ pyGet ((store_answer fickle_node [] ⟨[], none⟩).answers) "loop:stage" := by
  decide

/-- Claim C6 amended: `store_answer` is overwrite-idempotent for every node
whose transforms are insensitive to the context entry for `node.id` (in
particular for every node with an empty transform list, which covers all
nodes of `default_graph`): calling it twice with the same node and payload
leaves the stored answer for `node.id` equal to the result of a single call. -/
theorem store_answer_idempotent_of_insensitive (node : Node)
    (payload : Payload) (c : GraphContext)
    (h : ∀ t ∈ node.transforms, ∀ q : Payload, ∀ c1 c2 : GraphContext,
        c1.preset = c2.preset →
        (∀ k, k ≠ node.id → pyGet c1.answers k = pyGet c2.answers k) →
        t q c1 = t q c2) :
    pyGet ((store_answer node payload (store_answer node payload c)).answers)
        node.id
      = pyGet ((store_answer node payload c).answers) node.id := by
  have hoff : ∀ k, k ≠ node.id →
      pyGet (store_answer node payload c).answers k = pyGet c.answers k := by
    intro k hk
    simp [store_answer, pyGet_pySet_ne _ _ _ _ hk]
  have htrans :
      apply_transforms node.transforms payload (store_answer node payload c)
        = apply_transforms node.transforms payload c :=
    apply_transforms_congr _ _ _ _ (fun t ht q => h t ht q _ _ rfl hoff)
  calc pyGet ((store_answer node payload
          (store_answer node payload c)).answers) node.id
      = some (apply_transforms node.transforms payload
          (store_answer node payload c)) := by
        simp [store_answer, pyGet_pySet_self]
    _ = some (apply_transforms node.transforms payload c) := by rw [htrans]
    _ = pyGet ((store_answer node payload c).answers) node.id := by
        simp [store_answer, pyGet_pySet_self]

theorem store_answer_idempotent_witness :
    pyGet ((store_answer idea_seed [("concept", some "cat")]
        (store_answer idea_seed [("concept", some "cat")] ⟨[], none⟩)).answers)
        idea_seed.id
      = pyGet ((store_answer idea_seed [("concept", some "cat")]
          ⟨[], none⟩).answers) idea_seed.id :=
  store_answer_idempotent_of_insensitive idea_seed [("concept", some "cat")]
    ⟨[], none⟩ (by intro t ht; simp [idea_seed] at ht)

/-- A transform that always raises. -/
def boom : TransformE := fun _ _ => Except.error "boom"

/-- Claim C7: if a transform raises during `store_answer`, the failure
propagates unchanged to the caller and the context is left exactly as it
was — in particular the previously stored answer for the node id is
untouched, since the write happens only after the whole loop succeeds. -/
theorem transform_failure_atomic (node_id : String) (ts : List TransformE)
    (payload : Payload) (c : GraphContext) (e : String)
    (h : apply_transformsE ts payload c = Except.error e) :
    store_answer_try node_id ts payload c = (Except.error e, c)
    ∧ pyGet (store_answer_try node_id ts payload c).2.answers node_id
        = pyGet c.answers node_id := by
  constructor <;> simp [store_answer_try, h]

theorem transform_failure_atomic_witness :
    store_answer_try "idea:seed" [boom] []
        ⟨[("idea:seed", [("concept", some "cat")])], none⟩
      = (Except.error "boom",
          ⟨[("idea:seed", [("concept", some "cat")])], none⟩) :=
  (transform_failure_atomic "idea:seed" [boom] []
    ⟨[("idea:seed", [("concept", some "cat")])], none⟩ "boom" rfl).1

/-! ### Claims about the seed graph -/

theorem next_nodes_technique (c : GraphContext) :
    next_nodes default_graph "technique:camera" c
      = Except.ok (if camera_ready c then [delivery_export] else []) := by
  cases h : camera_ready c <;>
    simp [next_nodes, default_graph, edgeEligible, resolve_targets,
      List.filter_cons, h, pyGet, Except.map]

theorem next_nodes_style (c : GraphContext) :
    next_nodes default_graph "style:visual_language" c
      = Except.ok (technique_camera ::
          (if style_answered c then [delivery_export] else [])) := by
  cases h : style_answered c <;>
    simp [next_nodes, default_graph, edgeEligible, resolve_targets,
      List.filter_cons, h, pyGet, Except.map]

theorem camera_ready_iff (c : GraphContext) :
    camera_ready c = true ↔
      ∃ p s, pyGet c.answers "technique:camera" = some p
        ∧ pyGet p "camera" = some (some s) := by
  unfold camera_ready
  cases hp : pyGet c.answers "technique:camera" with
  | none => simp [hp, pyGet]
  | some p =>
      simp [hp]
      cases hq : pyGet p "camera" with
      | none => simp [hq]
      | some v =>
          cases v with
          | none => simp [hq]
          | some s => simp [hq]

/-- Claim C2: over `default_graph`, `next_nodes "technique:camera"` includes
the delivery node exactly when the stored technique answer has a present and
non-null `"camera"` field; an absent stage entry, an absent key, and a
stored null each exclude it. -/
theorem technique_shortcut_iff (ctx : GraphContext) :
    ∃ l, next_nodes default_graph "technique:camera" ctx = Except.ok l
      ∧ ("delivery:export" ∈ l.map Node.id ↔
          ∃ p s, pyGet ctx.answers "technique:camera" = some p
            ∧ pyGet p "camera" = some (some s)) := by
  refine ⟨_, next_nodes_technique ctx, ?_⟩
  rw [← camera_ready_iff]
  cases h : camera_ready ctx <;> simp [h, delivery_export]

/-- The context holding an empty-string `"camera"` value — falsy in Python
but not `None`. -/
def empty_camera_ctx : GraphContext :=
  { answers := [("technique:camera", [("camera", some "")])], preset := none }

/-- Claim C3 counterexample: with a stored `"camera"` value of `""` — not
truthy in the Python sense — the technique→delivery edge is still taken and
`next_nodes` returns the delivery node, so truthiness is not required. -/
theorem technique_shortcut_empty_string :
    pyGet ((pyGet empty_camera_ctx.answers "technique:camera").getD [])
        "camera" = some (some "")
    ∧ next_nodes default_graph "technique:camera" empty_camera_ctx
        = Except.ok [delivery_export] :=
  ⟨rfl, rfl⟩

/-- Claim C3 amended: the technique→delivery shortcut is eligible exactly
when the non-null check of the code passes, i.e. when
`ctx.answers.get("technique:camera", ...).get("camera")` is not `None`; any
non-null stored value qualifies, including the empty string. -/
theorem technique_shortcut_iff_non_null (ctx : GraphContext) :
    ∃ l, next_nodes default_graph "technique:camera" ctx = Except.ok l
      ∧ ("delivery:export" ∈ l.map Node.id ↔
          ((pyGet ((pyGet ctx.answers "technique:camera").getD [])
              "camera").bind id).isSome = true) := by
  refine ⟨_, next_nodes_technique ctx, ?_⟩
  show _ ↔ camera_ready ctx = true
  cases h : camera_ready ctx <;> simp [h, delivery_export]

/-- Claim C4: over `default_graph`, `next_nodes "style:visual_language"`
includes the delivery node exactly when `"style:visual_language"` is a key
of the answer mapping at all, whatever the stored mapping holds. -/
theorem style_shortcut_iff (ctx : GraphContext) :
    ∃ l, next_nodes default_graph "style:visual_language" ctx = Except.ok l
      ∧ ("delivery:export" ∈ l.map Node.id ↔
          ∃ p, pyGet ctx.answers "style:visual_language" = some p) := by
  refine ⟨_, next_nodes_style ctx, ?_⟩
  have hs : style_answered ctx = true ↔
      ∃ p, pyGet ctx.answers "style:visual_language" = some p := by
    simp [style_answered, Option.isSome_iff_exists]
  rw [← hs]
  cases h : style_answered ctx <;>
    simp [h, technique_camera, delivery_export]

/-- Claim C8 counterexample: only three of the five edges of
`default_graph` are unconditional — the chain idea→story→style→technique has
three edges, not four. -/
theorem default_graph_not_four_unconditional :
    (default_graph.edges.filter (fun e => e.condition.isNone)).length = 3
    ∧ ¬ (default_graph.edges.filter
          (fun e => e.condition.isNone)).length = 4 := by
  decide

/-- Claim C8 amended: `default_graph` has exactly the five stage nodes
idea:seed, story:genre, style:visual_language, technique:camera,
delivery:export and exactly five edges; its three unconditional edges form
the linear chain idea→story→style→technique; its two conditional edges are
shortcuts into delivery:export; the entrypoint is `"idea:seed"` and is a key
of the node mapping; and every edge endpoint is a key of the node mapping. -/
theorem default_graph_structure :
    default_graph.nodes.map Prod.fst
        = ["idea:seed", "story:genre", "style:visual_language",
           "technique:camera", "delivery:export"]
    ∧ default_graph.nodes.map (fun kv => kv.2.id)
        = ["idea:seed", "story:genre", "style:visual_language",
           "technique:camera", "delivery:export"]
    ∧ default_graph.edges.length = 5
    ∧ (default_graph.edges.filter (fun e => e.condition.isNone)).map
          (fun e => (e.source, e.target))
        = [("idea:seed", "story:genre"),
           ("story:genre", "style:visual_language"),
           ("style:visual_language", "technique:camera")]
    ∧ (default_graph.edges.filter (fun e => e.condition.isSome)).map
          (fun e => (e.source, e.target))
        = [("technique:camera", "delivery:export"),
           ("style:visual_language", "delivery:export")]
    ∧ default_graph.entrypoint = "idea:seed"
    ∧ (pyGet default_graph.nodes default_graph.entrypoint).isSome = true
    ∧ (∀ e ∈ default_graph.edges,
        (pyGet default_graph.nodes e.source).isSome = true
        ∧ (pyGet default_graph.nodes e.target).isSome = true) := by
  decide

end MagicPrompt
